import Mathlib

/-!
# Verification of the PocketRelay MitmServer wire models (`src/models.rs`)

This file gives a shallow embedding of the Rust module `src/models.rs` and
proves the specification claims about it.

The module's encode/decode routines are written against the external
`blaze_pk` codec library (out of scope per the spec, which treats it as an
opaque tag-value codec). We model the wire stream at the codec's abstraction
level as a list of `Token`s: a tagged-field header (four-character tag plus a
wire-type marker), raw string/integer/bool payloads, raw single bytes (union
discriminants and the group terminator), and a raw big-endian 32-bit integer
(the untagged `write_u32`/`read_u32` primitives used by `NetAddress`).
A `TdfWriter` append is modelled as list concatenation; a `TdfReader` is the
remaining token list, threaded through each decoder.
-/

/-- Wire value types of the TDF format (the subset used by `models.rs`). -/
inductive TdfType where
  | varInt
  | string
  | group
  | union
deriving DecidableEq, Repr

/-- One lexical element of the modelled wire stream. -/
inductive Token where
  /-- A tagged-field header: four-character tag plus the value's wire type. -/
  | header (tag : String) (ty : TdfType)
  /-- Payload of a tagged string field. -/
  | rawStr (v : String)
  /-- Payload of a tagged integer field (u8/u16/u32, varint encoded). -/
  | rawVar (v : Nat)
  /-- Payload of a tagged boolean field. -/
  | rawBool (v : Bool)
  /-- A single raw byte: union discriminant or group terminator. -/
  | rawByte (v : Nat)
  /-- An untagged raw 32-bit big-endian integer (`write_u32` / `read_u32`). -/
  | rawU32 (v : Nat)
deriving DecidableEq, Repr

/-- Decode failures, mirroring `blaze_pk::error::DecodeError` (the variants
reachable from this module). -/
inductive DecodeError where
  | MissingTag (tag : String) (ty : TdfType)
  | UnexpectedType (expected : TdfType) (actual : TdfType)
  | UnexpectedEof
deriving DecidableEq, Repr

/-- The union discriminant byte marking an unset union in the TDF format. -/
def UNION_UNSET : Nat := 0x7F

/-! ## Writer primitives (`blaze_pk::writer::TdfWriter`)

Each primitive returns the token run it appends to the output buffer. -/

namespace TdfWriter

def tag_str (tag : String) (v : String) : List Token :=
  [.header tag .string, .rawStr v]

def tag_u8 (tag : String) (v : Nat) : List Token :=
  [.header tag .varInt, .rawVar v]

def tag_u16 (tag : String) (v : Nat) : List Token :=
  [.header tag .varInt, .rawVar v]

def tag_u32 (tag : String) (v : Nat) : List Token :=
  [.header tag .varInt, .rawVar v]

def tag_bool (tag : String) (v : Bool) : List Token :=
  [.header tag .varInt, .rawBool v]

def tag_union_start (tag : String) (key : Nat) : List Token :=
  [.header tag .union, .rawByte key]

def tag_union_unset (tag : String) : List Token :=
  [.header tag .union, .rawByte UNION_UNSET]

def tag_group_end : List Token :=
  [.rawByte 0]

def write_u32 (v : Nat) : List Token :=
  [.rawU32 v]

end TdfWriter

/-! ## Reader primitives (`blaze_pk::reader::TdfReader`)

A reader is the remaining token list; each primitive returns the decoded
value together with the rest of the stream. -/

namespace TdfReader

/-- `reader.read_byte()`. -/
def read_byte : List Token → Except DecodeError (Nat × List Token)
  | .rawByte v :: rest => .ok (v, rest)
  | _ => .error .UnexpectedEof

/-- `reader.read_u32()`. -/
def read_u32 : List Token → Except DecodeError (Nat × List Token)
  | .rawU32 v :: rest => .ok (v, rest)
  | _ => .error .UnexpectedEof

/-- `reader.tag::<u16>(tag)`: a tagged varint field. -/
def tag_u16 (tag : String) : List Token → Except DecodeError (Nat × List Token)
  | .header t ty :: rest =>
    if t = tag then
      if ty = .varInt then
        match rest with
        | .rawVar v :: rest2 => .ok (v, rest2)
        | _ => .error .UnexpectedEof
      else .error (.UnexpectedType .varInt ty)
    else .error (.MissingTag tag .varInt)
  | _ => .error (.MissingTag tag .varInt)

/-- `reader.tag::<bool>(tag)`: a tagged boolean field. -/
def tag_bool (tag : String) : List Token → Except DecodeError (Bool × List Token)
  | .header t ty :: rest =>
    if t = tag then
      if ty = .varInt then
        match rest with
        | .rawBool v :: rest2 => .ok (v, rest2)
        | _ => .error .UnexpectedEof
      else .error (.UnexpectedType .varInt ty)
    else .error (.MissingTag tag .varInt)
  | _ => .error (.MissingTag tag .varInt)

/-- `reader.try_tag::<String>(tag)`: probe for a tagged string field; a
missing tag is not an error and leaves the stream position unchanged. -/
def try_tag_string (tag : String) :
    List Token → Except DecodeError (Option String × List Token)
  | .header t ty :: rest =>
    if t = tag then
      if ty = .string then
        match rest with
        | .rawStr s :: rest2 => .ok (some s, rest2)
        | _ => .error .UnexpectedEof
      else .error (.UnexpectedType .string ty)
    else .ok (none, .header t ty :: rest)
  | toks => .ok (none, toks)

end TdfReader

/-! ## `std::net::Ipv4Addr`

The Rust standard-library IPv4 address: four octets, with the strict
dotted-quad parser of `core::net` (four decimal groups of at most three
digits, no leading zeros, each at most 255, separated by `.`, consuming the
whole string) and the `a.b.c.d` `Display` rendering. -/

structure Ipv4Addr where
  o0 : Fin 256
  o1 : Fin 256
  o2 : Fin 256
  o3 : Fin 256
deriving DecidableEq, Repr

/-- `u32::from_be_bytes` applied to the four octets. -/
def Ipv4Addr.toBeU32 (x : Ipv4Addr) : Nat :=
  x.o0.val * 16777216 + x.o1.val * 65536 + x.o2.val * 256 + x.o3.val

/-- `u32::to_be_bytes` followed by `Ipv4Addr::from`: the four big-endian
octets of a 32-bit value. -/
def Ipv4Addr.ofBeU32 (v : Nat) : Ipv4Addr :=
  ⟨⟨v / 16777216 % 256, Nat.mod_lt _ (by norm_num)⟩,
   ⟨v / 65536 % 256, Nat.mod_lt _ (by norm_num)⟩,
   ⟨v / 256 % 256, Nat.mod_lt _ (by norm_num)⟩,
   ⟨v % 256, Nat.mod_lt _ (by norm_num)⟩⟩

/-- A decimal digit, as in `char::to_digit(10)`. -/
def isDecDigit (c : Char) : Bool := 48 ≤ c.toNat && c.toNat ≤ 57

/-- One octet group of the `core::net` IPv4 parser (`read_number`, radix 10,
at most three digits, no leading zero, value of u8 range); returns the octet
and the unconsumed input. -/
def readOctet (cs : List Char) : Option (Fin 256 × List Char) :=
  let ds := cs.takeWhile isDecDigit
  let rest := cs.dropWhile isDecDigit
  if ds.isEmpty then none
  else if 3 < ds.length then none
  else if 1 < ds.length ∧ ds.head? = some '0' then none
  else
    let v := ds.foldl (fun acc c => acc * 10 + (c.toNat - 48)) 0
    if h : 255 < v then none else some (⟨v, by omega⟩, rest)

/-- `str::parse::<Ipv4Addr>()`: four octet groups separated by `.`, the whole
string consumed. -/
def Ipv4Addr.parse (s : String) : Option Ipv4Addr :=
  match readOctet s.data with
  | some (a, '.' :: r1) =>
    match readOctet r1 with
    | some (b, '.' :: r2) =>
      match readOctet r2 with
      | some (c, '.' :: r3) =>
        match readOctet r3 with
        | some (d, []) => some ⟨a, b, c, d⟩
        | _ => none
      | _ => none
    | _ => none
  | _ => none

/-- `Display for Ipv4Addr`: the dotted-quad rendering `a.b.c.d`. -/
def Ipv4Addr.display (x : Ipv4Addr) : String :=
  toString x.o0.val ++ "." ++ toString x.o1.val ++ "." ++
  toString x.o2.val ++ "." ++ toString x.o3.val

/-! ## `NetAddress` -/

/-- `pub struct NetAddress(pub Ipv4Addr)`. -/
structure NetAddress where
  addr : Ipv4Addr
deriving DecidableEq, Repr

namespace NetAddress

/-- `Encodable for NetAddress`: the four octets are written as one raw
big-endian unsigned 32-bit integer. -/
def encodeTokens (a : NetAddress) : List Token :=
  TdfWriter.write_u32 a.addr.toBeU32

/-- `Decodable for NetAddress`: read one raw u32 and take its four
big-endian octets. -/
def decode (toks : List Token) : Except DecodeError (NetAddress × List Token) :=
  match TdfReader.read_u32 toks with
  | .ok (v, rest) => .ok (⟨Ipv4Addr.ofBeU32 v⟩, rest)
  | .error e => .error e

/-- `Display for NetAddress` (and its `Debug`, which delegates to
`Display`): the IPv4 dotted-quad rendering. -/
def toString (a : NetAddress) : String := a.addr.display

end NetAddress

/-- `value_type!(NetAddress, TdfType::VarInt)`: the wire type under which a
tagged `NetAddress` is written and read. -/
def NetAddress.valueType : TdfType := .varInt

/-- `writer.tag_value(tag, value)` at type `NetAddress`. -/
def TdfWriter.tag_value_net_address (tag : String) (value : NetAddress) : List Token :=
  .header tag NetAddress.valueType :: NetAddress.encodeTokens value

/-- `reader.tag::<NetAddress>(tag)`. -/
def TdfReader.tag_net_address (tag : String) :
    List Token → Except DecodeError (NetAddress × List Token)
  | .header t ty :: rest =>
    if t = tag then
      if ty = NetAddress.valueType then NetAddress.decode rest
      else .error (.UnexpectedType NetAddress.valueType ty)
    else .error (.MissingTag tag NetAddress.valueType)
  | _ => .error (.MissingTag tag NetAddress.valueType)

/-! ## `NetworkAddressType` -/

/-- The address-shape discriminant of the `ADDR` union: five named codes
plus a fallback carrying any unrecognized byte. -/
inductive NetworkAddressType where
  | Server
  | Client
  | Pair
  | IpAddress
  | HostnameAddress
  | Unknown (value : Nat)
deriving DecidableEq, Repr

namespace NetworkAddressType

/-- `NetworkAddressType::value`. -/
def value : NetworkAddressType → Nat
  | .Server => 0x0
  | .Client => 0x1
  | .Pair => 0x2
  | .IpAddress => 0x3
  | .HostnameAddress => 0x4
  | .Unknown value => value

/-- `NetworkAddressType::from_value`; the Rust `match` over byte literals is
rendered as the equivalent chain of equality tests. -/
def from_value (value : Nat) : NetworkAddressType :=
  if value = 0x0 then .Server
  else if value = 0x1 then .Client
  else if value = 0x2 then .Pair
  else if value = 0x3 then .IpAddress
  else if value = 0x4 then .HostnameAddress
  else .Unknown value

/-- Whether this is the fallback variant. -/
def isUnknown : NetworkAddressType → Bool
  | .Unknown _ => true
  | _ => false

end NetworkAddressType

/-- `type Port = u16`; modelled as `Nat`, with the u16 range stated where a
claim depends on it. -/
abbrev Port := Nat

/-! ## `InstanceHost` -/

/-- Host of an instance: either a symbolic hostname or an IPv4 address. -/
inductive InstanceHost where
  | Host (value : String)
  | Address (value : NetAddress)
deriving DecidableEq, Repr

namespace InstanceHost

/-- `From<String> for InstanceHost`: parse as IPv4 first, fall back to a
symbolic hostname. -/
def fromString (value : String) : InstanceHost :=
  match Ipv4Addr.parse value with
  | some addr => .Address ⟨addr⟩
  | none => .Host value

/-- `From<InstanceHost> for String`. -/
def intoString : InstanceHost → String
  | .Address value => value.toString
  | .Host value => value

/-- `Encodable for InstanceHost`: exactly one of the mutually exclusive
tagged fields `HOST` (string) or `IP` (NetAddress). -/
def encodeTokens : InstanceHost → List Token
  | .Host value => TdfWriter.tag_str "HOST" value
  | .Address value => TdfWriter.tag_value_net_address "IP" value

/-- `Decodable for InstanceHost`: probe for `HOST`; if absent require `IP`. -/
def decode (toks : List Token) : Except DecodeError (InstanceHost × List Token) :=
  match TdfReader.try_tag_string "HOST" toks with
  | .error e => .error e
  | .ok (some host, rest) => .ok (.Host host, rest)
  | .ok (none, rest) =>
    match TdfReader.tag_net_address "IP" rest with
    | .ok (ip, rest2) => .ok (.Address ip, rest2)
    | .error e => .error e

end InstanceHost

/-! ## `InstanceNet` -/

/-- Networking information for an instance: host plus port. -/
structure InstanceNet where
  host : InstanceHost
  port : Port
deriving DecidableEq, Repr

namespace InstanceNet

/-- `From<(String, Port)> for InstanceNet`. -/
def fromPair (p : String × Port) : InstanceNet :=
  match p with
  | (host, port) =>
    let host := InstanceHost.fromString host
    { host := host, port := port }

/-- `Encodable for InstanceNet`: host fields, then `PORT`, then the group
terminator byte. -/
def encodeTokens (n : InstanceNet) : List Token :=
  n.host.encodeTokens ++ TdfWriter.tag_u16 "PORT" n.port ++ TdfWriter.tag_group_end

/-- `Decodable for InstanceNet`: host, then `PORT`, then one unconditional
`read_byte` consuming the group terminator. -/
def decode (toks : List Token) : Except DecodeError (InstanceNet × List Token) :=
  match InstanceHost.decode toks with
  | .error e => .error e
  | .ok (host, toks1) =>
    match TdfReader.tag_u16 "PORT" toks1 with
    | .error e => .error e
    | .ok (port, toks2) =>
      match TdfReader.read_byte toks2 with
      | .error e => .error e
      | .ok (_, toks3) => .ok ({ host := host, port := port }, toks3)

end InstanceNet

/-- `value_type!(InstanceNet, TdfType::Group)`. -/
def InstanceNet.valueType : TdfType := .group

/-- `writer.tag_value(tag, value)` at type `InstanceNet`. -/
def TdfWriter.tag_value_net (tag : String) (value : InstanceNet) : List Token :=
  .header tag InstanceNet.valueType :: InstanceNet.encodeTokens value

/-! ## `Union` (`blaze_pk::types::Union`) -/

/-- A TDF union value: unset, or a discriminant key plus a payload. -/
inductive TdfUnion (α : Type) where
  | Set (key : Nat) (value : α)
  | Unset
deriving DecidableEq, Repr

/-- `Decodable for Union<InstanceNet>`: read the discriminant byte; the
unset key yields `Unset`, any other key is followed by a tagged
`InstanceNet` payload. -/
def unionNetDecode : List Token → Except DecodeError (TdfUnion InstanceNet × List Token)
  | .rawByte k :: rest =>
    if k = UNION_UNSET then .ok (.Unset, rest)
    else
      match rest with
      | .header _ ty :: rest2 =>
        if ty = InstanceNet.valueType then
          match InstanceNet.decode rest2 with
          | .ok (v, rest3) => .ok (.Set k v, rest3)
          | .error e => .error e
        else .error (.UnexpectedType InstanceNet.valueType ty)
      | _ => .error .UnexpectedEof
  | _ => .error .UnexpectedEof

/-- `reader.tag::<Union<InstanceNet>>(tag)`. -/
def TdfReader.tag_union_net (tag : String) :
    List Token → Except DecodeError (TdfUnion InstanceNet × List Token)
  | .header t ty :: rest =>
    if t = tag then
      if ty = .union then unionNetDecode rest
      else .error (.UnexpectedType .union ty)
    else .error (.MissingTag tag .union)
  | _ => .error (.MissingTag tag .union)

/-! ## `InstanceDetails` -/

/-- Details about an instance: networking information plus the
secure-connection flag. -/
structure InstanceDetails where
  net : InstanceNet
  secure : Bool
deriving DecidableEq, Repr

namespace InstanceDetails

/-- `Encodable for InstanceDetails`: the `ADDR` union opened with the
`Server` discriminant, the `VALU` payload, then `SECU` and a constant
`XDNS = false`. -/
def encodeTokens (d : InstanceDetails) : List Token :=
  TdfWriter.tag_union_start "ADDR" NetworkAddressType.Server.value ++
  TdfWriter.tag_value_net "VALU" d.net ++
  TdfWriter.tag_bool "SECU" d.secure ++
  TdfWriter.tag_bool "XDNS" false

/-- `Decodable for InstanceDetails`: the `ADDR` union must be set, else the
missing-tag error for `ADDR` at union type is returned; then `SECU` is
read; `XDNS` is never read. -/
def decode (toks : List Token) : Except DecodeError (InstanceDetails × List Token) :=
  match TdfReader.tag_union_net "ADDR" toks with
  | .error e => .error e
  | .ok (.Unset, _) => .error (.MissingTag "ADDR" .union)
  | .ok (.Set _ net, rest) =>
    match TdfReader.tag_bool "SECU" rest with
    | .error e => .error e
    | .ok (secure, rest2) => .ok ({ net := net, secure := secure }, rest2)

end InstanceDetails

/-! ## `InstanceRequest` -/

/-- The fixed outbound client descriptor; a stateless marker type. -/
structure InstanceRequest where
deriving DecidableEq, Repr

/-- `Encodable for InstanceRequest`: a fixed sequence of literal descriptor
fields, an explicitly unset `FPID` union, and the constant `LOC` locale
code. -/
def InstanceRequest.encodeTokens (_ : InstanceRequest) : List Token :=
  TdfWriter.tag_str "BSDK" "3.15.6.0" ++
  TdfWriter.tag_str "BTIM" "Dec 21 2012 12:47:10" ++
  TdfWriter.tag_str "CLNT" "MassEffect3-pc" ++
  TdfWriter.tag_u8 "CLTP" 0 ++
  TdfWriter.tag_str "CSKU" "134845" ++
  TdfWriter.tag_str "CVER" "05427.124" ++
  TdfWriter.tag_str "DSDK" "8.14.7.1" ++
  TdfWriter.tag_str "ENV" "prod" ++
  TdfWriter.tag_union_unset "FPID" ++
  TdfWriter.tag_u32 "LOC" 0x656e4e5a ++
  TdfWriter.tag_str "NAME" "masseffect-3-pc" ++
  TdfWriter.tag_str "PLAT" "Windows" ++
  TdfWriter.tag_str "PROF" "standardSecure_v3"

/-! ## Helper lemmas -/

/-- Splitting a 32-bit value built from four octets recovers the octets. -/
theorem Ipv4Addr.ofBeU32_toBeU32 (x : Ipv4Addr) : Ipv4Addr.ofBeU32 x.toBeU32 = x := by
  obtain ⟨⟨a, ha⟩, ⟨b, hb⟩, ⟨c, hc⟩, ⟨d, hd⟩⟩ := x
  simp only [Ipv4Addr.toBeU32, Ipv4Addr.ofBeU32, Ipv4Addr.mk.injEq, Fin.ext_iff]
  refine ⟨?_, ?_, ?_, ?_⟩ <;> omega

/-- Reassembling the four big-endian octets of a 32-bit value recovers it. -/
theorem Ipv4Addr.toBeU32_ofBeU32 (v : Nat) (h : v < 4294967296) :
    (Ipv4Addr.ofBeU32 v).toBeU32 = v := by
  simp only [Ipv4Addr.toBeU32, Ipv4Addr.ofBeU32]
  omega

/-- `NetAddress` decode is a left inverse of encode, on any stream tail. -/
theorem net_address_decode_inverse (a : NetAddress) (rest : List Token) :
    NetAddress.decode (a.encodeTokens ++ rest) = .ok (a, rest) := by
  obtain ⟨x⟩ := a
  simp [NetAddress.decode, NetAddress.encodeTokens, TdfWriter.write_u32,
        TdfReader.read_u32, Ipv4Addr.ofBeU32_toBeU32]

/-- `InstanceHost` decode is a left inverse of encode, on any stream tail. -/
theorem instance_host_decode_inverse (h : InstanceHost) (rest : List Token) :
    InstanceHost.decode (h.encodeTokens ++ rest) = .ok (h, rest) := by
  cases h with
  | Host value =>
    simp [InstanceHost.decode, InstanceHost.encodeTokens, TdfWriter.tag_str,
          TdfReader.try_tag_string]
  | Address value =>
    simp [InstanceHost.decode, InstanceHost.encodeTokens,
          TdfWriter.tag_value_net_address, TdfReader.try_tag_string,
          TdfReader.tag_net_address, NetAddress.valueType, net_address_decode_inverse]

/-- `InstanceNet` decode is a left inverse of encode, on any stream tail. -/
theorem instance_net_decode_inverse (n : InstanceNet) (rest : List Token) :
    InstanceNet.decode (n.encodeTokens ++ rest) = .ok (n, rest) := by
  obtain ⟨host, port⟩ := n
  simp [InstanceNet.decode, InstanceNet.encodeTokens, TdfWriter.tag_u16,
        TdfWriter.tag_group_end, TdfReader.tag_u16, TdfReader.read_byte,
        List.append_assoc, instance_host_decode_inverse]

/-! ## Claim theorems -/

/-- C1: Decoding an `InstanceDetails` from a stream whose `ADDR` union was
written in the unset state fails, for every such stream, with the
missing-field error carrying tag `ADDR` and the union wire type; the error
is returned, not silently defaulted. -/
theorem instance_details_decode_unset_addr_fails (rest : List Token) :
    InstanceDetails.decode (TdfWriter.tag_union_unset "ADDR" ++ rest) =
      .error (.MissingTag "ADDR" .union) := by
  simp [InstanceDetails.decode, TdfWriter.tag_union_unset, TdfReader.tag_union_net,
        unionNetDecode]

/-- C2: Encoding any `InstanceDetails` and decoding the result yields the
value back unchanged (in particular with the same `secure` flag), and decode
stops before the `XDNS` field: the `XDNS` tokens are left unconsumed in the
stream remainder, so the DNS-exempt bit is not observable after decode. -/
theorem instance_details_roundtrip (d : InstanceDetails) (rest : List Token) :
    InstanceDetails.decode (d.encodeTokens ++ rest) =
      .ok (d, Token.header "XDNS" .varInt :: Token.rawBool false :: rest) := by
  obtain ⟨net, secure⟩ := d
  simp [InstanceDetails.decode, InstanceDetails.encodeTokens,
        TdfWriter.tag_union_start, TdfWriter.tag_value_net, TdfWriter.tag_bool,
        TdfReader.tag_union_net, unionNetDecode, TdfReader.tag_bool,
        UNION_UNSET, NetworkAddressType.value, InstanceNet.valueType,
        List.append_assoc, instance_net_decode_inverse]

/-- C3: A string that parses as an IPv4 dotted-quad constructs the `Address`
variant of `InstanceHost`, and converting back to text gives the canonical
dotted-quad rendering of the parsed address; a string that does not parse as
an IPv4 literal constructs the `Host` variant, and converting back gives
exactly the original string. -/
theorem instance_host_string_disambiguation :
    (∀ (s : String) (a : Ipv4Addr), Ipv4Addr.parse s = some a →
       InstanceHost.fromString s = .Address ⟨a⟩ ∧
       InstanceHost.intoString (InstanceHost.fromString s) = a.display) ∧
    (∀ s : String, Ipv4Addr.parse s = none →
       InstanceHost.fromString s = .Host s ∧
       InstanceHost.intoString (InstanceHost.fromString s) = s) := by
  constructor
  · intro s a h
    simp [InstanceHost.fromString, h, InstanceHost.intoString, NetAddress.toString]
  · intro s h
    simp [InstanceHost.fromString, h, InstanceHost.intoString]

/-- C3 witness: the two branches at `"10.0.0.5"` and `"relay.example.net"`. -/
theorem instance_host_string_disambiguation_witness :
    (InstanceHost.fromString "10.0.0.5" = .Address ⟨⟨10, 0, 0, 5⟩⟩ ∧
     InstanceHost.intoString (InstanceHost.fromString "10.0.0.5") =
       Ipv4Addr.display ⟨10, 0, 0, 5⟩) ∧
    (InstanceHost.fromString "relay.example.net" = .Host "relay.example.net" ∧
     InstanceHost.intoString (InstanceHost.fromString "relay.example.net") =
       "relay.example.net") :=
  ⟨instance_host_string_disambiguation.1 "10.0.0.5" ⟨10, 0, 0, 5⟩ (by decide),
   instance_host_string_disambiguation.2 "relay.example.net" (by decide)⟩

/-- C4: for every byte value, `NetworkAddressType::from_value` followed by
`value` returns the original byte; no byte value is a decode error (the
conversion is total). -/
theorem network_address_type_byte_roundtrip (b : Nat) (h : b < 256) :
    (NetworkAddressType.from_value b).value = b := by
  simp only [NetworkAddressType.from_value]
  split_ifs <;> simp_all [NetworkAddressType.value]

/-- C4 witness: byte `0x7F` round-trips via the fallback variant. -/
theorem network_address_type_byte_roundtrip_witness :
    127 < 256 ∧ (NetworkAddressType.from_value 127).value = 127 :=
  ⟨by norm_num, network_address_type_byte_roundtrip 127 (by norm_num)⟩

/-- C5: `InstanceNet` encoding writes the host's fields, then the `PORT`
field, then exactly one group-terminator byte; decoding the encoding yields
the value back on any stream tail; and decode consumes the byte after the
port unconditionally (it succeeds whatever that byte's value is). -/
theorem instance_net_roundtrip (n : InstanceNet) (rest : List Token) :
    n.encodeTokens =
      n.host.encodeTokens ++ TdfWriter.tag_u16 "PORT" n.port ++ [Token.rawByte 0] ∧
    InstanceNet.decode (n.encodeTokens ++ rest) = .ok (n, rest) ∧
    ∀ b : Nat, InstanceNet.decode
        (n.host.encodeTokens ++ TdfWriter.tag_u16 "PORT" n.port ++
          (Token.rawByte b :: rest)) = .ok (n, rest) := by
  refine ⟨rfl, instance_net_decode_inverse n rest, ?_⟩
  intro b
  obtain ⟨host, port⟩ := n
  simp [InstanceNet.decode, TdfWriter.tag_u16, TdfReader.tag_u16,
        TdfReader.read_byte, List.append_assoc, instance_host_decode_inverse]

/-- C6: `NetAddress::encode` writes the four octets as one raw big-endian
32-bit integer and has no failure path; for every 32-bit value, decode
succeeds on it and re-encoding the decoded address yields the value back. -/
theorem net_address_be_u32_contract :
    (∀ a : NetAddress, a.encodeTokens = [Token.rawU32 a.addr.toBeU32]) ∧
    (∀ (v : Nat) (rest : List Token), v < 4294967296 →
       NetAddress.decode (Token.rawU32 v :: rest) =
         .ok (⟨Ipv4Addr.ofBeU32 v⟩, rest) ∧
       NetAddress.encodeTokens ⟨Ipv4Addr.ofBeU32 v⟩ = [Token.rawU32 v]) := by
  refine ⟨fun a => rfl, fun v rest h => ⟨rfl, ?_⟩⟩
  simp [NetAddress.encodeTokens, TdfWriter.write_u32, Ipv4Addr.toBeU32_ofBeU32 v h]

/-- C6 witness: the 32-bit value `0x0A000005` (10.0.0.5). -/
theorem net_address_be_u32_contract_witness :
    NetAddress.decode [Token.rawU32 167772165] =
      .ok (⟨Ipv4Addr.ofBeU32 167772165⟩, []) ∧
    NetAddress.encodeTokens ⟨Ipv4Addr.ofBeU32 167772165⟩ =
      [Token.rawU32 167772165] :=
  net_address_be_u32_contract.2 167772165 [] (by norm_num)

/-- C7: `InstanceDetails::encode` opens the `ADDR` union with the `Server`
discriminant (code 0) regardless of the value, writes the `InstanceNet`
payload under tag `VALU`, then `SECU` equal to the secure flag, then `XDNS`
always false. -/
theorem instance_details_encode_shape (d : InstanceDetails) :
    d.encodeTokens =
      Token.header "ADDR" .union :: Token.rawByte NetworkAddressType.Server.value ::
      Token.header "VALU" .group ::
      (d.net.encodeTokens ++
        [Token.header "SECU" .varInt, Token.rawBool d.secure,
         Token.header "XDNS" .varInt, Token.rawBool false]) ∧
    NetworkAddressType.Server.value = 0 := by
  constructor
  · simp [InstanceDetails.encodeTokens, TdfWriter.tag_union_start,
          TdfWriter.tag_value_net, TdfWriter.tag_bool, InstanceNet.valueType]
  · rfl

/-- C8: `InstanceRequest::encode` writes the same fixed sequence of literal
fields — including `LOC` as the 32-bit constant `0x656e4e5a` and `FPID` as
an explicitly unset union — independent of any input or state, so any two
invocations produce identical output. -/
theorem instance_request_encode_constant (r r2 : InstanceRequest) :
    r.encodeTokens =
      [Token.header "BSDK" .string, Token.rawStr "3.15.6.0",
       Token.header "BTIM" .string, Token.rawStr "Dec 21 2012 12:47:10",
       Token.header "CLNT" .string, Token.rawStr "MassEffect3-pc",
       Token.header "CLTP" .varInt, Token.rawVar 0,
       Token.header "CSKU" .string, Token.rawStr "134845",
       Token.header "CVER" .string, Token.rawStr "05427.124",
       Token.header "DSDK" .string, Token.rawStr "8.14.7.1",
       Token.header "ENV" .string, Token.rawStr "prod",
       Token.header "FPID" .union, Token.rawByte UNION_UNSET,
       Token.header "LOC" .varInt, Token.rawVar 0x656e4e5a,
       Token.header "NAME" .string, Token.rawStr "masseffect-3-pc",
       Token.header "PLAT" .string, Token.rawStr "Windows",
       Token.header "PROF" .string, Token.rawStr "standardSecure_v3"] ∧
    r.encodeTokens = r2.encodeTokens :=
  ⟨rfl, rfl⟩

/-- C9: `from_value` maps each byte 0–4 to the corresponding named variant
and never to the fallback; `from_value (t.value) = t` holds for all named
variants and for `Unknown b` with `b ≥ 5`, but fails for the constructible
values `Unknown 0` through `Unknown 4`. -/
theorem network_address_type_value_injectivity :
    (NetworkAddressType.from_value 0 = .Server ∧
     NetworkAddressType.from_value 1 = .Client ∧
     NetworkAddressType.from_value 2 = .Pair ∧
     NetworkAddressType.from_value 3 = .IpAddress ∧
     NetworkAddressType.from_value 4 = .HostnameAddress) ∧
    (∀ b : Nat, b ≤ 4 → (NetworkAddressType.from_value b).isUnknown = false) ∧
    (∀ t : NetworkAddressType, t.isUnknown = false →
       NetworkAddressType.from_value t.value = t) ∧
    (∀ b : Nat, 5 ≤ b →
       NetworkAddressType.from_value (NetworkAddressType.Unknown b).value =
         .Unknown b) ∧
    (∀ b : Nat, b ≤ 4 →
       NetworkAddressType.from_value (NetworkAddressType.Unknown b).value ≠
         .Unknown b) := by
  refine ⟨by decide, ?_, ?_, ?_, ?_⟩
  · intro b hb
    interval_cases b <;> decide
  · intro t ht
    cases t <;> first | decide | simp [NetworkAddressType.isUnknown] at ht
  · intro b hb
    have h0 : b ≠ 0 := by omega
    have h1 : b ≠ 1 := by omega
    have h2 : b ≠ 2 := by omega
    have h3 : b ≠ 3 := by omega
    have h4 : b ≠ 4 := by omega
    simp [NetworkAddressType.value, NetworkAddressType.from_value, h0, h1, h2, h3, h4]
  · intro b hb
    interval_cases b <;> decide

/-- C9 witness: concrete instances of each quantified conjunct. -/
theorem network_address_type_value_injectivity_witness :
    (NetworkAddressType.from_value 2).isUnknown = false ∧
    NetworkAddressType.from_value NetworkAddressType.Pair.value = .Pair ∧
    NetworkAddressType.from_value (NetworkAddressType.Unknown 7).value = .Unknown 7 ∧
    NetworkAddressType.from_value (NetworkAddressType.Unknown 3).value ≠ .Unknown 3 :=
  ⟨network_address_type_value_injectivity.2.1 2 (by norm_num),
   network_address_type_value_injectivity.2.2.1 .Pair (by decide),
   network_address_type_value_injectivity.2.2.2.1 7 (by norm_num),
   network_address_type_value_injectivity.2.2.2.2 3 (by norm_num)⟩

/-- C10: building an `InstanceNet` from a (host string, port) pair keeps the
port and applies exactly the `InstanceHost` string-disambiguation policy to
the host. -/
theorem instance_net_from_pair (s : String) (p : Port) :
    InstanceNet.fromPair (s, p) = { host := InstanceHost.fromString s, port := p } :=
  rfl
